import Mathlib

/-!
Verification development for the snap-hub one-time-token subsystem.

The definitions below are a shallow embedding of the TypeScript source:
  * `packages/server/src/auth/token-generation.ts` (token codec),
  * the token verification module (`verifyAndConsumeToken`, `checkTokenValidity`,
    `storeToken`, `getTokenStats`),
  * the cleanup script (`cleanupExpiredTokensAndSessions`),
  * the drizzle schema (`one_time_tokens`, `sessions`).

Modelling conventions:
  * Timestamps (`Date`) are `Int` (milliseconds since epoch); `new Date()` is an
    explicit `now` parameter.
  * The database table is an association list keyed by `tokenHash`
    (the column is the primary key, so well-formed states have no duplicate keys;
    theorems that need uniqueness of the digest row take it as a hypothesis).
    The `createdAt` column is set by a column default and never read by any of
    the embedded operations, so it is omitted from the record.
  * A SQL `UPDATE ... WHERE` is a map over all rows matching the predicate, and
    `RETURNING` collects the matched rows, exactly as the statement does.
  * `crypto.randomBytes` is externalized: byte-level functions take the byte
    list as an argument.  the sha256 hasher of `crypto.createHash` is an external library
    primitive, so functions that hash take the digest function as a parameter
    `hash : String → String`; no claim depends on properties of SHA-256 itself.
  * Thrown infrastructure errors of the store are modelled by a fault schedule
    `faults : List Bool` carried by the database value: each SQL statement pops
    one entry, and a popped `true` means that statement throws.  An empty
    schedule means the store is healthy (no statement ever throws).
-/

/-- One row of the `one_time_tokens` table (schema `one-time-tokens.ts`). -/
structure TokenRecord where
  userId : Nat
  expiresAt : Int
  used : Bool
  usedAt : Option Int
deriving Repr, DecidableEq

/-- The `one_time_tokens` table: rows keyed by `tokenHash` (primary key). -/
abbrev TokenStore := List (String × TokenRecord)

/-- One row of the `sessions` table; only `expiresAt` is read by the embedded
operations (the sweeper). -/
structure SessionRecord where
  expiresAt : Int
deriving Repr, DecidableEq

/-- Database handle for the token-verification module: the token table plus the
fault schedule of the underlying store (see the module docstring). -/
structure Db where
  rows : TokenStore
  faults : List Bool
deriving Repr, DecidableEq

/-- Run one SQL statement against the store: pop the fault schedule; the
returned flag is `true` when that statement throws. -/
def dbStep (db : Db) : Bool × Db :=
  match db.faults with
  | [] => (false, db)
  | f :: rest => (f, { db with faults := rest })

/-- Result type of `verifyAndConsumeToken` / `checkTokenValidity`
(the `TokenVerificationResult.error` union in the source; the spec name for the
`DATABASE_ERROR` literal is `STORAGE_ERROR`). -/
inductive TokenError where
  | INVALID_FORMAT
  | NOT_FOUND
  | EXPIRED
  | ALREADY_USED
  | DATABASE_ERROR
deriving Repr, DecidableEq

/-- Embedding of the `TokenVerificationResult` interface of the source. -/
structure TokenVerificationResult where
  success : Bool
  userId : Option Nat
  error : Option TokenError
  message : Option String
deriving Repr, DecidableEq

/-- Shorthand for the failure results the source builds literally. -/
def failureResult (e : TokenError) (msg : String) : TokenVerificationResult :=
  { success := false, userId := none, error := some e, message := some msg }

/-- Shorthand for the success result the source builds literally. -/
def successResult (uid : Nat) : TokenVerificationResult :=
  { success := true, userId := some uid, error := none, message := none }

/-- Character class of the regex `/^[A-Za-z0-9_-]+$/` in `validateTokenFormat`. -/
def isBase64UrlChar (c : Char) : Bool :=
  (decide ('A' ≤ c) && decide (c ≤ 'Z')) ||
  (decide ('a' ≤ c) && decide (c ≤ 'z')) ||
  (decide ('0' ≤ c) && decide (c ≤ '9')) ||
  c == '_' || c == '-'

/-- Embedding of `validateTokenFormat` from `token-generation.ts`: length must be the
configured 16, then the base64url regex must match.  (On a string of length 16
the regex `/^[A-Za-z0-9_-]+$/` holds iff every character is in the class.) -/
def validateTokenFormat (token : String) : Bool :=
  if token.length ≠ 16 then
    false
  else
    token.toList.all isBase64UrlChar

/-- The base64url alphabet in encoding order (RFC 4648 §5), as used by
the base64url mode of the Node `Buffer.toString`. -/
def base64UrlAlphabet : List Char :=
  "ABCDEFGHIJKLMNOPQRSTUVWXYZabcdefghijklmnopqrstuvwxyz0123456789-_".toList

/-- The base64url digit for a 6-bit value. -/
def b64Char (n : Nat) : Char :=
  base64UrlAlphabet.getD n 'A'

/-- Unpadded base64url encoding of a byte list, 3 bytes to 4 digits
(the base64url mode of the Node `Buffer.toString`, which emits no padding). -/
def base64UrlEncode : List Nat → List Char
  | [] => []
  | [b1] => [b64Char (b1 / 4), b64Char (b1 % 4 * 16)]
  | [b1, b2] => [b64Char (b1 / 4), b64Char (b1 % 4 * 16 + b2 / 16), b64Char (b2 % 16 * 4)]
  | b1 :: b2 :: b3 :: rest =>
      b64Char (b1 / 4) :: b64Char (b1 % 4 * 16 + b2 / 16) ::
      b64Char (b2 % 16 * 4 + b3 / 64) :: b64Char (b3 % 64) :: base64UrlEncode rest

/-- Value of `DEFAULT_TOKEN_CONFIG.entropyBytes` (12 bytes = 96 bits). -/
def entropyBytes : Nat := 12

/-- Value of `DEFAULT_TOKEN_CONFIG.expectedLength`. -/
def expectedLength : Nat := 16

/-- Value of `DEFAULT_TOKEN_CONFIG.defaultExpirationMs` (one hour). -/
def defaultExpirationMs : Int := 60 * 60 * 1000

/-- Embedding of `generateOneTimeToken` with `crypto.randomBytes(12)` externalized as the
`bytes` argument: encode as base64url, then throw (`Except.error`) when the
result does not have the expected length. -/
def generateOneTimeToken (bytes : List Nat) : Except String String :=
  let token := String.mk (base64UrlEncode bytes)
  if token.length ≠ expectedLength then
    Except.error "Generated token length does not match expected"
  else
    Except.ok token

/-- Embedding of `createTokenExpiration`: add the timeout (default one hour) to now. -/
def createTokenExpiration (now : Int) (timeoutMs : Option Int) : Int :=
  now + timeoutMs.getD defaultExpirationMs

/-- Return value of `generateTokenForUser`. -/
structure GeneratedToken where
  token : String
  hash : String
  userId : Nat
  expiresAt : Int
deriving Repr, DecidableEq

/-- Embedding of `generateTokenForUser`: generate, hash, and compute the expiry.  The random
bytes and the SHA-256 digest function are externalized parameters. -/
def generateTokenForUser (hash : String → String) (bytes : List Nat)
    (userId : Nat) (now : Int) (expirationMs : Option Int) :
    Except String GeneratedToken :=
  match generateOneTimeToken bytes with
  | Except.error e => Except.error e
  | Except.ok token =>
      Except.ok { token := token, hash := hash token, userId := userId,
                  expiresAt := createTokenExpiration now expirationMs }

/-- The `WHERE` predicate of the conditional `UPDATE` in `verifyAndConsumeToken`:
`token_hash = digest AND used = false AND expires_at > now`. -/
def consumeGuard (digest : String) (now : Int) (p : String × TokenRecord) : Bool :=
  p.1 == digest && !p.2.used && decide (now < p.2.expiresAt)

/-- The `SET used = true, used_at = now` part of the conditional update. -/
def markUsed (now : Int) (r : TokenRecord) : TokenRecord :=
  { r with used := true, usedAt := some now }

/-- The atomic conditional update of `verifyAndConsumeToken` (lines 78-94):
`UPDATE one_time_tokens SET used = true, used_at = now WHERE token_hash = digest
AND used = false AND expires_at > now RETURNING user_id, expires_at`.
Returns the new table and the `RETURNING` rows. -/
def updateConsume (digest : String) (now : Int) (s : TokenStore) :
    TokenStore × List (Nat × Int) :=
  (s.map fun p => if consumeGuard digest now p then (p.1, markUsed now p.2) else p,
   (s.filter (consumeGuard digest now)).map fun p => (p.2.userId, p.2.expiresAt))

/-- The query `SELECT ... WHERE token_hash = digest LIMIT 1` (the diagnostic read,
and the lookup of `checkTokenValidity`). -/
def lookupHash (s : TokenStore) (digest : String) : Option TokenRecord :=
  (s.find? fun p => p.1 == digest).map Prod.snd

/-- Embedding of `verifyAndConsumeToken`: validate the format, hash, run the atomic
conditional update; on zero affected rows run the diagnostic read and report
`NOT_FOUND` / `ALREADY_USED` / `EXPIRED` / `DATABASE_ERROR`; a statement that
throws is caught and reported as `DATABASE_ERROR`. -/
def verifyAndConsumeToken (hash : String → String) (token : String) (now : Int)
    (db : Db) : Db × TokenVerificationResult :=
  if !validateTokenFormat token then
    (db, failureResult TokenError.INVALID_FORMAT
      "Token must be 16 characters of base64url format")
  else
    let tokenHash := hash token
    let step1 := dbStep db
    let db1 := step1.2
    if step1.1 then
      (db1, failureResult TokenError.DATABASE_ERROR
        "Database error during token verification")
    else
      let upd := updateConsume tokenHash now db1.rows
      let db2 := { db1 with rows := upd.1 }
      match upd.2 with
      | [] =>
          let step2 := dbStep db2
          let db3 := step2.2
          if step2.1 then
            (db3, failureResult TokenError.DATABASE_ERROR
              "Database error during token verification")
          else
            match lookupHash db3.rows tokenHash with
            | none =>
                (db3, failureResult TokenError.NOT_FOUND "Token not found or invalid")
            | some tokenRecord =>
                if tokenRecord.used then
                  (db3, failureResult TokenError.ALREADY_USED
                    "Token has already been used")
                else if tokenRecord.expiresAt ≤ now then
                  (db3, failureResult TokenError.EXPIRED "Token has expired")
                else
                  (db3, failureResult TokenError.DATABASE_ERROR
                    "Token verification failed for unknown reason")
      | consumedToken :: _ =>
          (db2, successResult consumedToken.1)

/-- Embedding of `checkTokenValidity`: validate the format, hash, read the record without
modifying it, and classify; a thrown read is caught as `DATABASE_ERROR`. -/
def checkTokenValidity (hash : String → String) (token : String) (now : Int)
    (db : Db) : Db × TokenVerificationResult :=
  if !validateTokenFormat token then
    (db, failureResult TokenError.INVALID_FORMAT
      "Token must be 16 characters of base64url format")
  else
    let tokenHash := hash token
    let step1 := dbStep db
    let db1 := step1.2
    if step1.1 then
      (db1, failureResult TokenError.DATABASE_ERROR
        "Database error during token validity check")
    else
      match lookupHash db1.rows tokenHash with
      | none => (db1, failureResult TokenError.NOT_FOUND "Token not found or invalid")
      | some tokenRecord =>
          if tokenRecord.used then
            (db1, failureResult TokenError.ALREADY_USED "Token has already been used")
          else if tokenRecord.expiresAt ≤ now then
            (db1, failureResult TokenError.EXPIRED "Token has expired")
          else
            (db1, successResult tokenRecord.userId)

/-- Embedding of `storeToken`: `INSERT` the row with `used = false, usedAt = null`; returns
`true` on success and `false` when the insert throws — either an infrastructure
fault (fault schedule) or a primary-key violation (digest already present;
a foreign-key violation on `userId` is covered by the fault schedule). -/
def storeToken (tokenHash : String) (userId : Nat) (expiresAt : Int)
    (db : Db) : Db × Bool :=
  let step1 := dbStep db
  let db1 := step1.2
  if step1.1 then
    (db1, false)
  else if (lookupHash db1.rows tokenHash).isSome then
    (db1, false)
  else
    ({ db1 with
        rows := db1.rows ++ [(tokenHash, ⟨userId, expiresAt, false, none⟩)] },
     true)

/-- Return type of `getTokenStats`. -/
structure TokenStats where
  total : Nat
  used : Nat
  expired : Nat
  active : Nat
deriving Repr, DecidableEq

/-- Embedding of `getTokenStats`: the aggregate `COUNT` query over the rows of the user
(`expired` = unused and `expiresAt <= now`, `active` = unused and
`expiresAt > now`); a thrown query is caught and all-zero stats returned. -/
def getTokenStats (userId : Nat) (now : Int) (db : Db) : Db × TokenStats :=
  let step1 := dbStep db
  let db1 := step1.2
  if step1.1 then
    (db1, ⟨0, 0, 0, 0⟩)
  else
    let rows := db1.rows.filter fun p => p.2.userId == userId
    (db1,
     { total := rows.length,
       used := (rows.filter fun p => p.2.used).length,
       expired := (rows.filter fun p => decide (p.2.expiresAt ≤ now) && !p.2.used).length,
       active := (rows.filter fun p => decide (now < p.2.expiresAt) && !p.2.used).length })

/-- Database handle for the cleanup script: both tables plus the fault
schedule of the underlying store. -/
structure SweepDb where
  tokens : TokenStore
  sessions : List SessionRecord
  faults : List Bool
deriving Repr, DecidableEq

/-- Pop the fault schedule of the cleanup database for one SQL statement. -/
def sweepStep (db : SweepDb) : Bool × SweepDb :=
  match db.faults with
  | [] => (false, db)
  | f :: rest => (f, { db with faults := rest })

/-- Row counts returned by `cleanupExpiredTokensAndSessions`. -/
structure CleanupStats where
  expiredTokens : Nat
  expiredSessions : Nat
  oldUsedTokens : Nat
deriving Repr, DecidableEq

/-- The predicate of the third cleanup delete:
`used_at IS NOT NULL AND used_at < thirtyDaysAgo`. -/
def oldUsedGuard (thirtyDaysAgo : Int) (p : String × TokenRecord) : Bool :=
  match p.2.usedAt with
  | none => false
  | some u => decide (u < thirtyDaysAgo)

/-- Embedding of `cleanupExpiredTokensAndSessions`: three sequential bulk deletes inside one
`try` block — expired tokens (`expiresAt < now`), expired sessions
(`expiresAt < now`), then used tokens with `usedAt` more than 30 days old.
A statement that throws is caught, logged and rethrown (`Except.error`), so
the remaining statements do not run. -/
def cleanupExpiredTokensAndSessions (now : Int) (db : SweepDb) :
    SweepDb × Except Unit CleanupStats :=
  let step1 := sweepStep db
  let db1 := step1.2
  if step1.1 then
    (db1, Except.error ())
  else
    let keptTokens := db1.tokens.filter fun p => !decide (p.2.expiresAt < now)
    let expiredTokensCount := db1.tokens.length - keptTokens.length
    let db2 := { db1 with tokens := keptTokens }
    let step2 := sweepStep db2
    let db3 := step2.2
    if step2.1 then
      (db3, Except.error ())
    else
      let keptSessions := db3.sessions.filter fun s => !decide (s.expiresAt < now)
      let expiredSessionsCount := db3.sessions.length - keptSessions.length
      let db4 := { db3 with sessions := keptSessions }
      let step3 := sweepStep db4
      let db5 := step3.2
      if step3.1 then
        (db5, Except.error ())
      else
        let thirtyDaysAgo := now - 30 * 24 * 60 * 60 * 1000
        let keptTokens2 := db5.tokens.filter fun p => !oldUsedGuard thirtyDaysAgo p
        let oldUsedCount := db5.tokens.length - keptTokens2.length
        ({ db5 with tokens := keptTokens2 },
         Except.ok ⟨expiredTokensCount, expiredSessionsCount, oldUsedCount⟩)

/-- The rows of the table whose `tokenHash` key is `digest`.  A well-formed
table (primary-key constraint) has at most one such row. -/
def digestRows (s : TokenStore) (digest : String) : TokenStore :=
  s.filter fun p => p.1 == digest

/-- Every row keyed by `digest` is already consumed. -/
def AllUsed (s : TokenStore) (digest : String) : Prop :=
  ∀ p ∈ s, p.1 = digest → p.2.used = true

/-- One concurrent `redeem` call, reduced to its atomic conditional-update
step (lines 78-94 of the source): the call observes success iff the update
affected at least one row. -/
def redeemStep (digest : String) (now : Int) (s : TokenStore) : TokenStore × Bool :=
  ((updateConsume digest now s).1, !(updateConsume digest now s).2.isEmpty)

/-- Any interleaving of `N` concurrent redeem calls, each being one atomic
step: the calls execute in some order, at times `ts`; returns the final store
and the per-call success observations. -/
def runRedeems (digest : String) (ts : List Int) (s : TokenStore) :
    TokenStore × List Bool :=
  match ts with
  | [] => (s, [])
  | t :: rest =>
      let step := redeemStep digest t s
      let next := runRedeems digest rest step.1
      (next.1, step.2 :: next.2)

example : validateTokenFormat "AbC123dEf456GhI7" = true := by decide
example : validateTokenFormat "invalid+token" = false := by decide
example : generateOneTimeToken (List.replicate 12 0) = Except.ok "AAAAAAAAAAAAAAAA" := rfl

lemma consumeMap_id_of_forall_not (d : String) (t : Int) (s : TokenStore)
    (h : ∀ p ∈ s, consumeGuard d t p = false) :
    (s.map fun p => if consumeGuard d t p then (p.1, markUsed t p.2) else p) = s := by
  induction s with
  | nil => rfl
  | cons p s ih =>
      rw [List.map_cons, if_neg (by simp [h p (List.mem_cons_self p s)])]
      rw [List.cons.injEq]
      exact ⟨rfl, ih fun q hq => h q (List.mem_cons_of_mem p hq)⟩

lemma updateConsume_of_forall_not (d : String) (t : Int) (s : TokenStore)
    (h : ∀ p ∈ s, consumeGuard d t p = false) :
    updateConsume d t s = (s, []) := by
  unfold updateConsume
  rw [consumeMap_id_of_forall_not d t s h]
  have hf : s.filter (consumeGuard d t) = [] :=
    List.filter_eq_nil_iff.mpr fun q hq => by simp [h q hq]
  rw [hf]
  rfl

lemma digestRows_nil_guard (d : String) (t : Int) (s : TokenStore)
    (h : digestRows s d = []) :
    ∀ p ∈ s, consumeGuard d t p = false := by
  intro p hp
  have hk : ¬ (p.1 == d) = true := List.filter_eq_nil_iff.mp h p hp
  simp only [consumeGuard]
  simp [Bool.eq_false_iff.mpr hk]

lemma updateConsume_of_digestRows_nil (d : String) (t : Int) (s : TokenStore)
    (h : digestRows s d = []) :
    updateConsume d t s = (s, []) :=
  updateConsume_of_forall_not d t s (digestRows_nil_guard d t s h)

lemma lookupHash_of_digestRows_nil (d : String) (s : TokenStore)
    (h : digestRows s d = []) :
    lookupHash s d = none := by
  unfold lookupHash
  have : s.find? (fun p => p.1 == d) = none := by
    apply List.find?_eq_none.mpr
    intro p hp
    exact List.filter_eq_nil_iff.mp h p hp
  simp [this]

lemma lookupHash_of_digestRows_single (d : String) (r : TokenRecord) (s : TokenStore)
    (h : digestRows s d = [(d, r)]) :
    lookupHash s d = some r := by
  unfold lookupHash
  unfold digestRows at h
  induction s with
  | nil => simp at h
  | cons p s ih =>
      rw [List.filter_cons] at h
      by_cases hk : (p.1 == d) = true
      · rw [if_pos hk] at h
        have hp : p = (d, r) := ((List.cons.injEq _ _ _ _).mp h).1
        rw [List.find?_cons, hk, hp]
        rfl
      · rw [if_neg hk] at h
        rw [List.find?_cons, Bool.eq_false_iff.mpr hk]
        exact ih h

lemma updateConsume_hit (d : String) (t : Int) (r : TokenRecord) (s : TokenStore)
    (hrow : digestRows s d = [(d, r)])
    (hg : consumeGuard d t (d, r) = true) :
    (updateConsume d t s).2 = [(r.userId, r.expiresAt)] ∧
    digestRows (updateConsume d t s).1 d = [(d, markUsed t r)] := by
  induction s with
  | nil => simp [digestRows] at hrow
  | cons p s ih =>
      have h' := hrow
      unfold digestRows at h'
      rw [List.filter_cons] at h'
      by_cases hk : (p.1 == d) = true
      · rw [if_pos hk] at h'
        obtain ⟨hp, htail⟩ := (List.cons.injEq _ _ _ _).mp h'
        subst hp
        have hnil : updateConsume d t s = (s, []) :=
          updateConsume_of_digestRows_nil d t s htail
        have hguards := digestRows_nil_guard d t s htail
        constructor
        · show ((((d, r) :: s).filter (consumeGuard d t)).map
            fun p => (p.2.userId, p.2.expiresAt)) = [(r.userId, r.expiresAt)]
          rw [List.filter_cons_of_pos hg]
          have : s.filter (consumeGuard d t) = [] :=
            List.filter_eq_nil_iff.mpr fun q hq => by simp [hguards q hq]
          simp [this]
        · show digestRows ((((d, r) :: s).map
            fun p => if consumeGuard d t p then (p.1, markUsed t p.2) else p)) d =
            [(d, markUsed t r)]
          rw [List.map_cons, if_pos hg]
          have hmap : (s.map
              fun p => if consumeGuard d t p then (p.1, markUsed t p.2) else p) = s := by
            have := updateConsume_of_forall_not d t s hguards
            unfold updateConsume at this
            exact (Prod.mk.injEq _ _ _ _).mp this |>.1
          rw [hmap]
          unfold digestRows
          rw [List.filter_cons, if_pos (by simp)]
          rw [htail]
      · rw [if_neg hk] at h'
        have hgp : consumeGuard d t p = false := by
          simp only [consumeGuard]
          simp [Bool.eq_false_iff.mpr hk]
        obtain ⟨ih1, ih2⟩ := ih h'
        constructor
        · show (((p :: s).filter (consumeGuard d t)).map
            fun q => (q.2.userId, q.2.expiresAt)) = [(r.userId, r.expiresAt)]
          rw [List.filter_cons, if_neg (by simp [hgp])]
          exact ih1
        · show digestRows (((p :: s).map
            fun q => if consumeGuard d t q then (q.1, markUsed t q.2) else q)) d =
            [(d, markUsed t r)]
          rw [List.map_cons, if_neg (by simp [hgp])]
          unfold digestRows
          rw [List.filter_cons, if_neg hk]
          exact ih2

lemma updateConsume_of_allUsed (d : String) (t : Int) (s : TokenStore)
    (h : AllUsed s d) :
    updateConsume d t s = (s, []) := by
  apply updateConsume_of_forall_not
  intro p hp
  by_cases hk : (p.1 == d) = true
  · have : p.2.used = true := h p hp (by simpa using hk)
    simp [consumeGuard, this]
  · simp [consumeGuard, Bool.eq_false_iff.mpr hk]

lemma allUsed_of_digestRows_used (d : String) (r : TokenRecord) (s : TokenStore)
    (hrow : digestRows s d = [(d, r)]) (hused : r.used = true) :
    AllUsed s d := by
  intro p hp hk
  have : p ∈ digestRows s d := by
    unfold digestRows
    exact List.mem_filter.mpr ⟨hp, by simp [hk]⟩
  rw [hrow] at this
  have hp2 : p = (d, r) := by simpa using this
  subst hp2
  exact hused

lemma updateConsume_of_single_used (d : String) (t : Int) (r : TokenRecord)
    (s : TokenStore) (hrow : digestRows s d = [(d, r)]) (hused : r.used = true) :
    updateConsume d t s = (s, []) :=
  updateConsume_of_allUsed d t s (allUsed_of_digestRows_used d r s hrow hused)

lemma runRedeems_of_allUsed (d : String) (ts : List Int) (s : TokenStore)
    (h : AllUsed s d) :
    runRedeems d ts s = (s, List.replicate ts.length false) := by
  induction ts with
  | nil => rfl
  | cons t rest ih =>
      unfold runRedeems redeemStep
      rw [updateConsume_of_allUsed d t s h]
      simp [ih, List.replicate_succ]


/-- Claim C1: for one stored token record that is unused and unexpired, across
N concurrent `redeem` (`verifyAndConsumeToken`) calls against the same digest —
each modeled as its single atomic conditional-update step guarded by
`used = false AND expiresAt > now` — exactly one call observes success and all
others observe failure, for every interleaving (every execution order `ts` of
the atomic steps). -/
theorem redeem_race_exactly_one_success (d : String) (r : TokenRecord)
    (s : TokenStore) (ts : List Int)
    (hrow : digestRows s d = [(d, r)])
    (hunused : r.used = false)
    (hlive : ∀ t ∈ ts, t < r.expiresAt)
    (hne : ts ≠ []) :
    (runRedeems d ts s).2.count true = 1 ∧
    (runRedeems d ts s).2.count false = ts.length - 1 := by
  obtain ⟨t, rest, rfl⟩ : ∃ t rest, ts = t :: rest := by
    cases ts with
    | nil => exact absurd rfl hne
    | cons t rest => exact ⟨t, rest, rfl⟩
  have hg : consumeGuard d t (d, r) = true := by
    simp [consumeGuard, hunused, hlive t (List.mem_cons_self t rest)]
  obtain ⟨hret, hrows⟩ := updateConsume_hit d t r s hrow hg
  have hall : AllUsed (updateConsume d t s).1 d :=
    allUsed_of_digestRows_used d (markUsed t r) _ hrows rfl
  have hrun := runRedeems_of_allUsed d rest (updateConsume d t s).1 hall
  have houtcome : (runRedeems d (t :: rest) s).2 =
      true :: List.replicate rest.length false := by
    show (redeemStep d t s).2 :: (runRedeems d rest (redeemStep d t s).1).2 =
      true :: List.replicate rest.length false
    unfold redeemStep
    rw [hret, hrun]
    simp
  rw [houtcome]
  constructor
  · simp [List.count_cons, List.count_replicate]
  · simp [List.count_cons, List.count_replicate]

/-- Concrete run of `redeem_race_exactly_one_success`: one unused token with
expiry 100, three racing calls at times 1, 2, 3. -/
theorem redeem_race_exactly_one_success_witness :
    (runRedeems "d" [1, 2, 3] [("d", ⟨7, 100, false, none⟩)]).2.count true = 1 ∧
    (runRedeems "d" [1, 2, 3] [("d", ⟨7, 100, false, none⟩)]).2.count false = 2 :=
  redeem_race_exactly_one_success "d" ⟨7, 100, false, none⟩
    [("d", ⟨7, 100, false, none⟩)] [1, 2, 3]
    (by decide) rfl (by decide) (by decide)

lemma updateConsume_of_single_miss (d : String) (t : Int) (r : TokenRecord)
    (s : TokenStore) (hrow : digestRows s d = [(d, r)])
    (hg : consumeGuard d t (d, r) = false) :
    updateConsume d t s = (s, []) := by
  apply updateConsume_of_forall_not
  intro p hp
  by_cases hk : (p.1 == d) = true
  · have hmem : p ∈ digestRows s d := by
      unfold digestRows
      exact List.mem_filter.mpr ⟨hp, hk⟩
    rw [hrow] at hmem
    have hp2 : p = (d, r) := by simpa using hmem
    rw [hp2]
    exact hg
  · simp [consumeGuard, Bool.eq_false_iff.mpr hk]

lemma verify_consume_hit (hash : String → String) (token d : String)
    (r : TokenRecord) (s : TokenStore) (now : Int)
    (hfmt : validateTokenFormat token = true)
    (hhash : hash token = d)
    (hrow : digestRows s d = [(d, r)])
    (hg : consumeGuard d now (d, r) = true) :
    verifyAndConsumeToken hash token now ⟨s, []⟩ =
      (⟨(updateConsume d now s).1, []⟩, successResult r.userId) := by
  obtain ⟨hret, _⟩ := updateConsume_hit d now r s hrow hg
  simp only [verifyAndConsumeToken, hfmt, hhash, Bool.not_true, if_false, dbStep]
  rw [hret]
  rfl

lemma verify_consume_miss (hash : String → String) (token d : String)
    (r : TokenRecord) (s : TokenStore) (now : Int)
    (hfmt : validateTokenFormat token = true)
    (hhash : hash token = d)
    (hrow : digestRows s d = [(d, r)])
    (hg : consumeGuard d now (d, r) = false) :
    verifyAndConsumeToken hash token now ⟨s, []⟩ =
      (⟨s, []⟩,
       if r.used then failureResult TokenError.ALREADY_USED "Token has already been used"
       else if r.expiresAt ≤ now then failureResult TokenError.EXPIRED "Token has expired"
       else failureResult TokenError.DATABASE_ERROR
         "Token verification failed for unknown reason") := by
  have hmiss := updateConsume_of_single_miss d now r s hrow hg
  have hlook := lookupHash_of_digestRows_single d r s hrow
  simp only [verifyAndConsumeToken, hfmt, hhash, Bool.not_true, if_false, dbStep]
  rw [hmiss]
  simp only [dbStep]
  rw [hlook]
  by_cases hu : r.used = true
  · simp [hu]
  · by_cases he : r.expiresAt ≤ now
    · simp [hu, he]
    · simp [hu, he]

lemma verify_consume_notfound (hash : String → String) (token d : String)
    (s : TokenStore) (now : Int)
    (hfmt : validateTokenFormat token = true)
    (hhash : hash token = d)
    (hrow : digestRows s d = []) :
    verifyAndConsumeToken hash token now ⟨s, []⟩ =
      (⟨s, []⟩, failureResult TokenError.NOT_FOUND "Token not found or invalid") := by
  have hmiss := updateConsume_of_digestRows_nil d now s hrow
  have hlook := lookupHash_of_digestRows_nil d s hrow
  simp only [verifyAndConsumeToken, hfmt, hhash, Bool.not_true, if_false, dbStep]
  rw [hmiss]
  simp only [dbStep]
  rw [hlook]
  rfl

lemma check_validity_found (hash : String → String) (token d : String)
    (r : TokenRecord) (s : TokenStore) (now : Int) (faults : List Bool)
    (hfmt : validateTokenFormat token = true)
    (hhash : hash token = d)
    (hlook : lookupHash s d = some r)
    (hhealthy : faults = []) :
    checkTokenValidity hash token now ⟨s, faults⟩ =
      (⟨s, faults⟩,
       if r.used then failureResult TokenError.ALREADY_USED "Token has already been used"
       else if r.expiresAt ≤ now then failureResult TokenError.EXPIRED "Token has expired"
       else successResult r.userId) := by
  subst hhealthy
  simp only [checkTokenValidity, hfmt, hhash, Bool.not_true, if_false, dbStep]
  rw [hlook]
  by_cases hu : r.used = true
  · simp [hu]
  · by_cases he : r.expiresAt ≤ now
    · simp [hu, he]
    · simp [hu, he]

/-- Claim C2: for every freshly stored, unexpired token, the first sequential
`verifyAndConsumeToken` returns success with the owning `userId` and sets
`used = true` and `usedAt = now` atomically; an immediately following second
redeem of the same raw token fails with `ALREADY_USED`. -/
theorem redeem_first_succeeds_second_already_used
    (hash : String → String) (token d : String) (r : TokenRecord)
    (s : TokenStore) (now now2 : Int)
    (hfmt : validateTokenFormat token = true)
    (hhash : hash token = d)
    (hrow : digestRows s d = [(d, r)])
    (hunused : r.used = false)
    (hexp : now < r.expiresAt) :
    (verifyAndConsumeToken hash token now ⟨s, []⟩).2 = successResult r.userId ∧
    digestRows (verifyAndConsumeToken hash token now ⟨s, []⟩).1.rows d =
      [(d, { r with used := true, usedAt := some now })] ∧
    (verifyAndConsumeToken hash token now2
        (verifyAndConsumeToken hash token now ⟨s, []⟩).1).2.success = false ∧
    (verifyAndConsumeToken hash token now2
        (verifyAndConsumeToken hash token now ⟨s, []⟩).1).2.error =
      some TokenError.ALREADY_USED := by
  have hg : consumeGuard d now (d, r) = true := by
    simp [consumeGuard, hunused, hexp]
  have h1 := verify_consume_hit hash token d r s now hfmt hhash hrow hg
  obtain ⟨_, hrows⟩ := updateConsume_hit d now r s hrow hg
  have hg2 : consumeGuard d now2 (d, markUsed now r) = false := by
    simp [consumeGuard, markUsed]
  have h2 := verify_consume_miss hash token d (markUsed now r)
    (updateConsume d now s).1 now2 hfmt hhash hrows hg2
  rw [h1]
  refine ⟨rfl, hrows, ?_, ?_⟩
  · rw [h2]
    simp [markUsed, failureResult]
  · rw [h2]
    simp [markUsed, failureResult]

/-- Concrete run of `redeem_first_succeeds_second_already_used`: a single
fresh token record for user 7 expiring at 100, redeemed at times 5 and 6. -/
theorem redeem_first_succeeds_second_already_used_witness :
    (verifyAndConsumeToken (fun _ => "d") "AAAAAAAAAAAAAAAA" 5
        ⟨[("d", ⟨7, 100, false, none⟩)], []⟩).2 = successResult 7 ∧
    digestRows (verifyAndConsumeToken (fun _ => "d") "AAAAAAAAAAAAAAAA" 5
        ⟨[("d", ⟨7, 100, false, none⟩)], []⟩).1.rows "d" = [("d", ⟨7, 100, true, some 5⟩)] ∧
    (verifyAndConsumeToken (fun _ => "d") "AAAAAAAAAAAAAAAA" 6
        (verifyAndConsumeToken (fun _ => "d") "AAAAAAAAAAAAAAAA" 5
          ⟨[("d", ⟨7, 100, false, none⟩)], []⟩).1).2.success = false ∧
    (verifyAndConsumeToken (fun _ => "d") "AAAAAAAAAAAAAAAA" 6
        (verifyAndConsumeToken (fun _ => "d") "AAAAAAAAAAAAAAAA" 5
          ⟨[("d", ⟨7, 100, false, none⟩)], []⟩).1).2.error =
      some TokenError.ALREADY_USED :=
  redeem_first_succeeds_second_already_used (fun _ => "d") "AAAAAAAAAAAAAAAA" "d"
    ⟨7, 100, false, none⟩ [("d", ⟨7, 100, false, none⟩)] 5 6
    (by decide) rfl (by decide) rfl (by decide)

/-- Claim C3: when the atomic conditional update of `verifyAndConsumeToken`
affects zero rows (and no concurrent writer intervenes before the diagnostic
read), the function returns `NOT_FOUND` if no record exists for the digest,
`ALREADY_USED` if the record is used, and `EXPIRED` if the record is unused
with `expiresAt <= now`; redeem of an expired token never returns success. -/
theorem redeem_zero_rows_diagnostic (hash : String → String) (token d : String)
    (s : TokenStore) (now : Int)
    (hfmt : validateTokenFormat token = true)
    (hhash : hash token = d) :
    (digestRows s d = [] →
      (verifyAndConsumeToken hash token now ⟨s, []⟩).2 =
        failureResult TokenError.NOT_FOUND "Token not found or invalid") ∧
    (∀ r : TokenRecord, digestRows s d = [(d, r)] → r.used = true →
      (verifyAndConsumeToken hash token now ⟨s, []⟩).2 =
        failureResult TokenError.ALREADY_USED "Token has already been used") ∧
    (∀ r : TokenRecord, digestRows s d = [(d, r)] → r.used = false →
      r.expiresAt ≤ now →
      (verifyAndConsumeToken hash token now ⟨s, []⟩).2 =
        failureResult TokenError.EXPIRED "Token has expired") ∧
    (∀ r : TokenRecord, digestRows s d = [(d, r)] → r.expiresAt ≤ now →
      (verifyAndConsumeToken hash token now ⟨s, []⟩).2.success = false) := by
  refine ⟨?_, ?_, ?_, ?_⟩
  · intro hrow
    rw [verify_consume_notfound hash token d s now hfmt hhash hrow]
  · intro r hrow hused
    have hg : consumeGuard d now (d, r) = false := by
      simp [consumeGuard, hused]
    rw [verify_consume_miss hash token d r s now hfmt hhash hrow hg]
    simp [hused]
  · intro r hrow hused hexp
    have hg : consumeGuard d now (d, r) = false := by
      simp [consumeGuard, hused, not_lt.mpr hexp]
    rw [verify_consume_miss hash token d r s now hfmt hhash hrow hg]
    simp [hused, hexp]
  · intro r hrow hexp
    have hg : consumeGuard d now (d, r) = false := by
      simp [consumeGuard, not_lt.mpr hexp]
    rw [verify_consume_miss hash token d r s now hfmt hhash hrow hg]
    by_cases hu : r.used = true
    · simp [hu, failureResult]
    · simp [hu, hexp, failureResult]

/-- Concrete runs of `redeem_zero_rows_diagnostic`: an empty store
(`NOT_FOUND`), a consumed record (`ALREADY_USED`), and an unused record
expired at 50 redeemed at time 60 (`EXPIRED`). -/
theorem redeem_zero_rows_diagnostic_witness :
    (verifyAndConsumeToken (fun _ => "d") "AAAAAAAAAAAAAAAA" 60 ⟨[], []⟩).2 =
      failureResult TokenError.NOT_FOUND "Token not found or invalid" ∧
    (verifyAndConsumeToken (fun _ => "d") "AAAAAAAAAAAAAAAA" 60
        ⟨[("d", ⟨7, 100, true, some 1⟩)], []⟩).2 =
      failureResult TokenError.ALREADY_USED "Token has already been used" ∧
    (verifyAndConsumeToken (fun _ => "d") "AAAAAAAAAAAAAAAA" 60
        ⟨[("d", ⟨7, 50, false, none⟩)], []⟩).2 =
      failureResult TokenError.EXPIRED "Token has expired" ∧
    (verifyAndConsumeToken (fun _ => "d") "AAAAAAAAAAAAAAAA" 60
        ⟨[("d", ⟨7, 50, false, none⟩)], []⟩).2.success = false :=
  ⟨(redeem_zero_rows_diagnostic (fun _ => "d") "AAAAAAAAAAAAAAAA" "d" [] 60
      (by decide) rfl).1 (by decide),
   (redeem_zero_rows_diagnostic (fun _ => "d") "AAAAAAAAAAAAAAAA" "d"
      [("d", ⟨7, 100, true, some 1⟩)] 60 (by decide) rfl).2.1
      ⟨7, 100, true, some 1⟩ (by decide) rfl,
   (redeem_zero_rows_diagnostic (fun _ => "d") "AAAAAAAAAAAAAAAA" "d"
      [("d", ⟨7, 50, false, none⟩)] 60 (by decide) rfl).2.2.1
      ⟨7, 50, false, none⟩ (by decide) rfl (by decide),
   (redeem_zero_rows_diagnostic (fun _ => "d") "AAAAAAAAAAAAAAAA" "d"
      [("d", ⟨7, 50, false, none⟩)] 60 (by decide) rfl).2.2.2
      ⟨7, 50, false, none⟩ (by decide) (by decide)⟩

/-- Claim C9: for a record that is both used and past expiry, both
`verifyAndConsumeToken` and `checkTokenValidity` report `ALREADY_USED`,
never `EXPIRED`: the `used` check precedes the expiry check in both paths. -/
theorem used_priority_over_expired
    (hash : String → String) (token d : String) (r : TokenRecord)
    (s : TokenStore) (now : Int)
    (hfmt : validateTokenFormat token = true)
    (hhash : hash token = d)
    (hrow : digestRows s d = [(d, r)])
    (hused : r.used = true)
    (_hexp : r.expiresAt ≤ now) :
    (verifyAndConsumeToken hash token now ⟨s, []⟩).2 =
      failureResult TokenError.ALREADY_USED "Token has already been used" ∧
    (checkTokenValidity hash token now ⟨s, []⟩).2 =
      failureResult TokenError.ALREADY_USED "Token has already been used" := by
  have hg : consumeGuard d now (d, r) = false := by
    simp [consumeGuard, hused]
  constructor
  · rw [verify_consume_miss hash token d r s now hfmt hhash hrow hg]
    simp [hused]
  · rw [check_validity_found hash token d r s now [] hfmt hhash
      (lookupHash_of_digestRows_single d r s hrow) rfl]
    simp [hused]

/-- Concrete run of `used_priority_over_expired`: a record used at time 1 and
expired at 50, queried at time 60. -/
theorem used_priority_over_expired_witness :
    (verifyAndConsumeToken (fun _ => "d") "AAAAAAAAAAAAAAAA" 60
        ⟨[("d", ⟨7, 50, true, some 1⟩)], []⟩).2 =
      failureResult TokenError.ALREADY_USED "Token has already been used" ∧
    (checkTokenValidity (fun _ => "d") "AAAAAAAAAAAAAAAA" 60
        ⟨[("d", ⟨7, 50, true, some 1⟩)], []⟩).2 =
      failureResult TokenError.ALREADY_USED "Token has already been used" :=
  used_priority_over_expired (fun _ => "d") "AAAAAAAAAAAAAAAA" "d"
    ⟨7, 50, true, some 1⟩ [("d", ⟨7, 50, true, some 1⟩)] 60
    (by decide) rfl (by decide) rfl (by decide)

lemma verify_success_or_error (hash : String → String) (token : String)
    (now : Int) (db : Db) :
    (verifyAndConsumeToken hash token now db).2.success = true ∨
    ∃ e, (verifyAndConsumeToken hash token now db).2.error = some e := by
  unfold verifyAndConsumeToken
  dsimp only
  split
  · exact Or.inr ⟨_, rfl⟩
  · split
    · exact Or.inr ⟨_, rfl⟩
    · split
      · split
        · exact Or.inr ⟨_, rfl⟩
        · split
          · exact Or.inr ⟨_, rfl⟩
          · split
            · exact Or.inr ⟨_, rfl⟩
            · split
              · exact Or.inr ⟨_, rfl⟩
              · exact Or.inr ⟨_, rfl⟩
      · exact Or.inl rfl

lemma check_success_or_error (hash : String → String) (token : String)
    (now : Int) (db : Db) :
    (checkTokenValidity hash token now db).2.success = true ∨
    ∃ e, (checkTokenValidity hash token now db).2.error = some e := by
  unfold checkTokenValidity
  dsimp only
  split
  · exact Or.inr ⟨_, rfl⟩
  · split
    · exact Or.inr ⟨_, rfl⟩
    · split
      · exact Or.inr ⟨_, rfl⟩
      · split
        · exact Or.inr ⟨_, rfl⟩
        · split
          · exact Or.inr ⟨_, rfl⟩
          · exact Or.inl rfl

/-- Claim C4: every failure result of `checkTokenValidity` and
`verifyAndConsumeToken` carries one of the five error codes of `TokenError`
(the union type of the code: INVALID_FORMAT, NOT_FOUND, EXPIRED, ALREADY_USED,
DATABASE_ERROR — the spec names the last one `STORAGE_ERROR`), and a
thrown persistence failure is caught and surfaced as that code — for
`storeToken`, as the boolean `false` — rather than escaping. -/
theorem error_codes_and_storage_failures
    (hash : String → String) (token tokenHash : String) (now expiresAt : Int)
    (db : Db) (userId : Nat) (rows : TokenStore) (rest : List Bool)
    (hfmt : validateTokenFormat token = true) :
    ((verifyAndConsumeToken hash token now db).2.success = false →
      ∃ e, (verifyAndConsumeToken hash token now db).2.error = some e) ∧
    ((checkTokenValidity hash token now db).2.success = false →
      ∃ e, (checkTokenValidity hash token now db).2.error = some e) ∧
    ((verifyAndConsumeToken hash token now ⟨rows, true :: rest⟩).2 =
      failureResult TokenError.DATABASE_ERROR
        "Database error during token verification") ∧
    ((checkTokenValidity hash token now ⟨rows, true :: rest⟩).2 =
      failureResult TokenError.DATABASE_ERROR
        "Database error during token validity check") ∧
    ((storeToken tokenHash userId expiresAt ⟨rows, true :: rest⟩).2 = false) := by
  refine ⟨?_, ?_, ?_, ?_, rfl⟩
  · intro h
    cases verify_success_or_error hash token now db with
    | inl h1 => rw [h1] at h; exact absurd h (by simp)
    | inr h2 => exact h2
  · intro h
    cases check_success_or_error hash token now db with
    | inl h1 => rw [h1] at h; exact absurd h (by simp)
    | inr h2 => exact h2
  · simp [verifyAndConsumeToken, hfmt, dbStep]
  · simp [checkTokenValidity, hfmt, dbStep]

/-- Concrete run of `error_codes_and_storage_failures`: a store whose next
statement throws; redeem and check report the storage error code, store
reports `false`. -/
theorem error_codes_and_storage_failures_witness :
    ((verifyAndConsumeToken (fun _ => "d") "AAAAAAAAAAAAAAAA" 5 ⟨[], [true]⟩).2.success = false →
      ∃ e, (verifyAndConsumeToken (fun _ => "d") "AAAAAAAAAAAAAAAA" 5 ⟨[], [true]⟩).2.error = some e) ∧
    ((checkTokenValidity (fun _ => "d") "AAAAAAAAAAAAAAAA" 5 ⟨[], [true]⟩).2.success = false →
      ∃ e, (checkTokenValidity (fun _ => "d") "AAAAAAAAAAAAAAAA" 5 ⟨[], [true]⟩).2.error = some e) ∧
    ((verifyAndConsumeToken (fun _ => "d") "AAAAAAAAAAAAAAAA" 5 ⟨[], [true]⟩).2 =
      failureResult TokenError.DATABASE_ERROR
        "Database error during token verification") ∧
    ((checkTokenValidity (fun _ => "d") "AAAAAAAAAAAAAAAA" 5 ⟨[], [true]⟩).2 =
      failureResult TokenError.DATABASE_ERROR
        "Database error during token validity check") ∧
    ((storeToken "d" 7 100 ⟨[], [true]⟩).2 = false) :=
  error_codes_and_storage_failures (fun _ => "d") "AAAAAAAAAAAAAAAA" "d" 5 100
    ⟨[], [true]⟩ 7 [] [] (by decide)

/-- Claim C10: if the underlying store query throws, `getTokenStats` returns
all-zero statistics without throwing — the same value as for a user with no
records, with no failure signal surfaced. -/
theorem stats_failure_indistinguishable_from_empty (userId : Nat) (now : Int)
    (rows s : TokenStore) (rest : List Bool)
    (hnone : s.filter (fun p => p.2.userId == userId) = []) :
    (getTokenStats userId now ⟨rows, true :: rest⟩).2 = ⟨0, 0, 0, 0⟩ ∧
    (getTokenStats userId now ⟨s, []⟩).2 = ⟨0, 0, 0, 0⟩ := by
  constructor
  · rfl
  · simp only [getTokenStats, dbStep]
    rw [hnone]
    rfl

/-- Concrete run of `stats_failure_indistinguishable_from_empty`: a failing
query over a non-empty table for user 7 versus a healthy query for user 7 over
a table holding only records of user 8. -/
theorem stats_failure_indistinguishable_from_empty_witness :
    (getTokenStats 7 60 ⟨[("d", ⟨7, 100, false, none⟩)], [true]⟩).2 = ⟨0, 0, 0, 0⟩ ∧
    (getTokenStats 7 60 ⟨[("e", ⟨8, 100, false, none⟩)], []⟩).2 = ⟨0, 0, 0, 0⟩ :=
  stats_failure_indistinguishable_from_empty 7 60
    [("d", ⟨7, 100, false, none⟩)] [("e", ⟨8, 100, false, none⟩)] [] (by decide)

/-- Counterexample to claim C8 as stated: with one expired session in the
store and the expired-token delete throwing, the sweep reports an error and
the expired-session delete has not executed — the expired session (expiry 0,
now 100) is still present.  The passes are not independent. -/
theorem sweep_passes_not_independent_counterexample :
    (cleanupExpiredTokensAndSessions 100 ⟨[], [⟨0⟩], [true]⟩).2 = Except.error () ∧
    (cleanupExpiredTokensAndSessions 100 ⟨[], [⟨0⟩], [true]⟩).1.sessions = [⟨0⟩] :=
  ⟨rfl, rfl⟩

/-- Claim C8, amended: the three sweep passes run sequentially inside a
single try block that rethrows.  If the expired-token delete throws, the
expired-session and old-used-token deletes do not execute (both tables are
left unchanged) and the error propagates; if the expired-session delete
throws, the already-performed expired-token delete persists and the rest is
aborted; only a fault-free run performs all three deletes. -/
theorem sweep_sequential_single_try (now : Int) (tokens : TokenStore)
    (sessions : List SessionRecord) (rest : List Bool) :
    ((cleanupExpiredTokensAndSessions now ⟨tokens, sessions, true :: rest⟩).2 =
        Except.error () ∧
      (cleanupExpiredTokensAndSessions now ⟨tokens, sessions, true :: rest⟩).1.tokens =
        tokens ∧
      (cleanupExpiredTokensAndSessions now ⟨tokens, sessions, true :: rest⟩).1.sessions =
        sessions) ∧
    ((cleanupExpiredTokensAndSessions now ⟨tokens, sessions, false :: true :: rest⟩).2 =
        Except.error () ∧
      (cleanupExpiredTokensAndSessions now
          ⟨tokens, sessions, false :: true :: rest⟩).1.tokens =
        tokens.filter (fun p => !decide (p.2.expiresAt < now)) ∧
      (cleanupExpiredTokensAndSessions now
          ⟨tokens, sessions, false :: true :: rest⟩).1.sessions = sessions) ∧
    ((cleanupExpiredTokensAndSessions now ⟨tokens, sessions, []⟩).1.tokens =
        (tokens.filter fun p => !decide (p.2.expiresAt < now)).filter
          (fun p => !oldUsedGuard (now - 30 * 24 * 60 * 60 * 1000) p) ∧
      (cleanupExpiredTokensAndSessions now ⟨tokens, sessions, []⟩).1.sessions =
        sessions.filter (fun s => !decide (s.expiresAt < now)) ∧
      (cleanupExpiredTokensAndSessions now ⟨tokens, sessions, []⟩).2 =
        Except.ok
          ⟨tokens.length - (tokens.filter fun p => !decide (p.2.expiresAt < now)).length,
           sessions.length - (sessions.filter fun s => !decide (s.expiresAt < now)).length,
           (tokens.filter fun p => !decide (p.2.expiresAt < now)).length -
             ((tokens.filter fun p => !decide (p.2.expiresAt < now)).filter
               (fun p => !oldUsedGuard (now - 30 * 24 * 60 * 60 * 1000) p)).length⟩) :=
  ⟨⟨rfl, rfl, rfl⟩, ⟨rfl, rfl, rfl⟩, ⟨rfl, rfl, rfl⟩⟩

/-- Claim C6: `validateTokenFormat` returns true iff the candidate has length
exactly 16 and every character is in `[A-Za-z0-9_-]`; in particular it rejects
length 15 and 17 and the characters `+`, `/`, `=`, and space. -/
theorem validateTokenFormat_iff_length_and_alphabet :
    (∀ s : String, validateTokenFormat s = true ↔
      (s.length = 16 ∧ ∀ c ∈ s.toList, isBase64UrlChar c = true)) ∧
    validateTokenFormat "ABCDEFGHIJKLMNO" = false ∧
    validateTokenFormat "ABCDEFGHIJKLMNOPQ" = false ∧
    validateTokenFormat "ABCDEFG+HIJKLMNO" = false ∧
    validateTokenFormat "ABCDEFG/HIJKLMNO" = false ∧
    validateTokenFormat "ABCDEFG=HIJKLMNO" = false ∧
    validateTokenFormat "ABCDEFG HIJKLMNO" = false := by
  refine ⟨?_, by decide, by decide, by decide, by decide, by decide, by decide⟩
  intro s
  unfold validateTokenFormat
  by_cases hl : s.length = 16
  · simp [hl, List.all_eq_true]
  · simp [hl]

lemma b64Char_alphabet : ∀ n < 64, isBase64UrlChar (b64Char n) = true := by decide

lemma base64UrlEncode_length (l : List Nat) (h : l.length % 3 = 0) :
    (base64UrlEncode l).length = l.length / 3 * 4 := by
  induction l using base64UrlEncode.induct with
  | case1 => simp [base64UrlEncode]
  | case2 b1 => simp at h
  | case3 b1 b2 => simp at h
  | case4 b1 b2 b3 rest ih =>
      simp only [base64UrlEncode, List.length_cons] at h ⊢
      have h3 : rest.length % 3 = 0 := by omega
      rw [ih h3]
      omega

lemma base64UrlEncode_alphabet (l : List Nat) (hb : ∀ b ∈ l, b < 256) :
    ∀ c ∈ base64UrlEncode l, isBase64UrlChar c = true := by
  induction l using base64UrlEncode.induct with
  | case1 => simp [base64UrlEncode]
  | case2 b1 =>
      have h1 : b1 < 256 := hb b1 (by simp)
      intro c hc
      simp only [base64UrlEncode, List.mem_cons, List.not_mem_nil, or_false] at hc
      rcases hc with h | h <;> subst h <;> exact b64Char_alphabet _ (by omega)
  | case3 b1 b2 =>
      have h1 : b1 < 256 := hb b1 (by simp)
      have h2 : b2 < 256 := hb b2 (by simp)
      intro c hc
      simp only [base64UrlEncode, List.mem_cons, List.not_mem_nil, or_false] at hc
      rcases hc with h | h | h <;> subst h <;> exact b64Char_alphabet _ (by omega)
  | case4 b1 b2 b3 rest ih =>
      have h1 : b1 < 256 := hb b1 (by simp)
      have h2 : b2 < 256 := hb b2 (by simp)
      have h3 : b3 < 256 := hb b3 (by simp)
      intro c hc
      simp only [base64UrlEncode, List.mem_cons] at hc
      rcases hc with h | h | h | h | h
      · subst h; exact b64Char_alphabet _ (by omega)
      · subst h; exact b64Char_alphabet _ (by omega)
      · subst h; exact b64Char_alphabet _ (by omega)
      · subst h; exact b64Char_alphabet _ (by omega)
      · exact ih (fun b hbm => hb b (by simp [hbm])) c h

lemma generateOneTimeToken_valid (bytes : List Nat)
    (hlen : bytes.length = entropyBytes) (hb : ∀ b ∈ bytes, b < 256) :
    generateOneTimeToken bytes = Except.ok (String.mk (base64UrlEncode bytes)) ∧
    (String.mk (base64UrlEncode bytes)).length = 16 ∧
    validateTokenFormat (String.mk (base64UrlEncode bytes)) = true := by
  have hl : (base64UrlEncode bytes).length = 16 := by
    rw [base64UrlEncode_length bytes (by rw [hlen]; rfl), hlen]
    rfl
  have hs : (String.mk (base64UrlEncode bytes)).length = 16 := hl
  refine ⟨?_, hs, ?_⟩
  · unfold generateOneTimeToken
    rw [if_neg (by rw [hs]; exact fun hne => hne rfl)]
  · unfold validateTokenFormat
    rw [if_neg (fun hne => hne hs)]
    exact List.all_eq_true.mpr (base64UrlEncode_alphabet bytes hb)

/-- Claim C7: `generateOneTimeToken` always returns: for every 12-byte random
input, base64url encoding yields a string of length exactly 16 over the
base64url alphabet, so the internal length-check throw branch is unreachable
and every generated raw token satisfies `validateTokenFormat`. -/
theorem generateOneTimeToken_never_throws (bytes : List Nat)
    (hlen : bytes.length = entropyBytes) (hb : ∀ b ∈ bytes, b < 256) :
    generateOneTimeToken bytes = Except.ok (String.mk (base64UrlEncode bytes)) ∧
    (String.mk (base64UrlEncode bytes)).length = 16 ∧
    validateTokenFormat (String.mk (base64UrlEncode bytes)) = true :=
  generateOneTimeToken_valid bytes hlen hb

/-- Concrete run of `generateOneTimeToken_never_throws` on the all-zero and
all-255 twelve-byte inputs. -/
theorem generateOneTimeToken_never_throws_witness :
    (generateOneTimeToken (List.replicate 12 0) = Except.ok "AAAAAAAAAAAAAAAA" ∧
      ("AAAAAAAAAAAAAAAA" : String).length = 16 ∧
      validateTokenFormat "AAAAAAAAAAAAAAAA" = true) ∧
    (generateOneTimeToken (List.replicate 12 255) =
        Except.ok (String.mk (base64UrlEncode (List.replicate 12 255))) ∧
      (String.mk (base64UrlEncode (List.replicate 12 255))).length = 16 ∧
      validateTokenFormat (String.mk (base64UrlEncode (List.replicate 12 255))) = true) :=
  ⟨generateOneTimeToken_never_throws (List.replicate 12 0) (by decide) (by decide),
   generateOneTimeToken_never_throws (List.replicate 12 255) (by decide) (by decide)⟩

lemma checkTokenValidity_rows (hash : String → String) (token : String)
    (now : Int) (db : Db) :
    ((checkTokenValidity hash token now db).1).rows = db.rows := by
  have hdb : (dbStep db).2.rows = db.rows := by
    rcases db with ⟨rows, faults⟩
    cases faults <;> rfl
  unfold checkTokenValidity
  dsimp only
  split
  · rfl
  · split
    · exact hdb
    · split
      · exact hdb
      · split
        · exact hdb
        · split
          · exact hdb
          · exact hdb

/-- Claim C5: issuing a token with `generateTokenForUser` and storing it, then
immediately calling `checkTokenValidity` on the raw token, returns success with
the same `userId`, and the `used` flag of the stored record is still `false`
afterwards; `checkTokenValidity` never mutates any token record, so an
immediately repeated call returns the identical result. -/
theorem issue_store_check_roundtrip (hash : String → String) (bytes : List Nat)
    (userId : Nat) (now : Int) (expirationMs : Option Int) (s : TokenStore)
    (g : GeneratedToken)
    (hlen : bytes.length = entropyBytes) (hb : ∀ b ∈ bytes, b < 256)
    (hgen : generateTokenForUser hash bytes userId now expirationMs = Except.ok g)
    (hfresh : digestRows s g.hash = [])
    (httl : 0 < expirationMs.getD defaultExpirationMs) :
    (storeToken g.hash g.userId g.expiresAt ⟨s, []⟩).2 = true ∧
    (checkTokenValidity hash g.token now
        (storeToken g.hash g.userId g.expiresAt ⟨s, []⟩).1).2 =
      successResult userId ∧
    lookupHash ((checkTokenValidity hash g.token now
        (storeToken g.hash g.userId g.expiresAt ⟨s, []⟩).1).1).rows g.hash =
      some ⟨userId, g.expiresAt, false, none⟩ ∧
    (∀ token2 now2 db2,
      ((checkTokenValidity hash token2 now2 db2).1).rows = db2.rows) ∧
    (checkTokenValidity hash g.token now
        ((checkTokenValidity hash g.token now
          (storeToken g.hash g.userId g.expiresAt ⟨s, []⟩).1).1)).2 =
      (checkTokenValidity hash g.token now
        (storeToken g.hash g.userId g.expiresAt ⟨s, []⟩).1).2 := by
  obtain ⟨hok, hlen16, hfmt⟩ := generateOneTimeToken_valid bytes hlen hb
  have hg : g = ⟨String.mk (base64UrlEncode bytes),
      hash (String.mk (base64UrlEncode bytes)), userId,
      createTokenExpiration now expirationMs⟩ := by
    unfold generateTokenForUser at hgen
    rw [hok] at hgen
    exact ((Except.ok.injEq _ _).mp hgen).symm
  subst hg
  dsimp only at hfresh ⊢
  have hstore : storeToken (hash (String.mk (base64UrlEncode bytes))) userId
      (createTokenExpiration now expirationMs) ⟨s, []⟩ =
      (⟨s ++ [(hash (String.mk (base64UrlEncode bytes)),
          ⟨userId, createTokenExpiration now expirationMs, false, none⟩)], []⟩, true) := by
    simp only [storeToken, dbStep]
    rw [lookupHash_of_digestRows_nil _ s hfresh]
    rfl
  have hrow2 : digestRows
      (s ++ [(hash (String.mk (base64UrlEncode bytes)),
        ⟨userId, createTokenExpiration now expirationMs, false, none⟩)])
      (hash (String.mk (base64UrlEncode bytes))) =
      [(hash (String.mk (base64UrlEncode bytes)),
        ⟨userId, createTokenExpiration now expirationMs, false, none⟩)] := by
    unfold digestRows at hfresh ⊢
    rw [List.filter_append, hfresh]
    simp
  have hlook := lookupHash_of_digestRows_single _ _ _ hrow2
  have hcheck : checkTokenValidity hash (String.mk (base64UrlEncode bytes)) now
      ⟨s ++ [(hash (String.mk (base64UrlEncode bytes)),
        ⟨userId, createTokenExpiration now expirationMs, false, none⟩)], []⟩ =
      (⟨s ++ [(hash (String.mk (base64UrlEncode bytes)),
        ⟨userId, createTokenExpiration now expirationMs, false, none⟩)], []⟩,
       successResult userId) := by
    rw [check_validity_found hash (String.mk (base64UrlEncode bytes)) _
      ⟨userId, createTokenExpiration now expirationMs, false, none⟩ _ now [] hfmt rfl hlook rfl]
    have hexp : ¬ (createTokenExpiration now expirationMs ≤ now) := by
      unfold createTokenExpiration
      omega
    simp [hexp]
  rw [hstore]
  dsimp only
  rw [hcheck]
  dsimp only
  rw [hcheck]
  exact ⟨rfl, rfl, hlook, fun token2 now2 db2 => checkTokenValidity_rows hash token2 now2 db2, rfl⟩

/-- Concrete run of `issue_store_check_roundtrip`: user 7 issues at time 5 with
a 100 ms TTL over an empty store, then checks twice. -/
theorem issue_store_check_roundtrip_witness :
    (storeToken "h" 7 105 ⟨[], []⟩).2 = true ∧
    (checkTokenValidity (fun _ => "h") "AAAAAAAAAAAAAAAA" 5
        (storeToken "h" 7 105 ⟨[], []⟩).1).2 = successResult 7 ∧
    lookupHash ((checkTokenValidity (fun _ => "h") "AAAAAAAAAAAAAAAA" 5
        (storeToken "h" 7 105 ⟨[], []⟩).1).1).rows "h" = some ⟨7, 105, false, none⟩ ∧
    (∀ token2 now2 db2,
      ((checkTokenValidity (fun _ => "h") token2 now2 db2).1).rows = db2.rows) ∧
    (checkTokenValidity (fun _ => "h") "AAAAAAAAAAAAAAAA" 5
        ((checkTokenValidity (fun _ => "h") "AAAAAAAAAAAAAAAA" 5
          (storeToken "h" 7 105 ⟨[], []⟩).1).1)).2 =
      (checkTokenValidity (fun _ => "h") "AAAAAAAAAAAAAAAA" 5
        (storeToken "h" 7 105 ⟨[], []⟩).1).2 :=
  issue_store_check_roundtrip (fun _ => "h") (List.replicate 12 0) 7 5 (some 100) []
    ⟨"AAAAAAAAAAAAAAAA", "h", 7, 105⟩ (by decide) (by decide) rfl (by decide) (by decide)
